import Mathlib

/-!
# Verification of the `telegraph` async API client

Shallow embedding of `src/telegraph/types.py` and `src/telegraph/api.py`.

JSON wire values are modelled by `JValue`; Python dicts that travel on the
wire are association lists in insertion order (all dicts built by this
code have pairwise-distinct keys).  Python exceptions become the error
side of `Except` with one `TgError` constructor per exception class the
code can raise.  The network is an oracle `server : WireCall → HttpResponse`
passed to each operation; every operation returns its result, the list of
wire calls it actually issued, and the client state after the call.
-/

/-- A JSON value as produced by `resp.json()` / sent via `json=params`. -/
inductive JValue : Type where
  | null
  | bool (b : Bool)
  | num (n : Int)
  | str (s : String)
  | arr (elems : List JValue)
  | obj (fields : List (String × JValue))
deriving Repr

/-- Python truthiness (`if x:`) of a JSON-shaped value:
`None`, `False`, `0`, `""`, `[]` and `{}` are falsy, everything else truthy. -/
def jTruthy : JValue → Bool
  | .null => false
  | .bool b => b
  | .num n => n != 0
  | .str s => !s.isEmpty
  | .arr elems => !elems.isEmpty
  | .obj fields => !fields.isEmpty

mutual
/-- Python `repr` of a JSON-shaped value (strings quoted), used by `str`
on containers.  String escaping is not modelled; no claim depends on it. -/
def pyRepr : JValue → String
  | .null => "None"
  | .bool true => "True"
  | .bool false => "False"
  | .num n => toString n
  | .str s => "'" ++ s ++ "'"
  | .arr elems => "[" ++ pyReprList elems ++ "]"
  | .obj fields => "\x7b" ++ pyReprFields fields ++ "\x7d"

def pyReprList : List JValue → String
  | [] => ""
  | [v] => pyRepr v
  | v :: rest => pyRepr v ++ ", " ++ pyReprList rest

def pyReprFields : List (String × JValue) → String
  | [] => ""
  | [(k, v)] => "'" ++ k ++ "': " ++ pyRepr v
  | (k, v) :: rest => "'" ++ k ++ "': " ++ pyRepr v ++ ", " ++ pyReprFields rest
end

/-- Python `str()` of a JSON-shaped value, as an f-string renders it:
a string renders as itself, everything else as its `repr`. -/
def pyStr : JValue → String
  | .str s => s
  | v => pyRepr v

/-- Dict read `d[k]` restricted to lookup: first binding of `k`. -/
def lookupKey (fields : List (String × JValue)) (k : String) : Option JValue :=
  (fields.find? (fun kv => kv.1 == k)).map (·.2)

/-- Dict write `d[k] = v`: overwrite in place if the key exists
(Python dicts keep the original position), otherwise append. -/
def setKey (fields : List (String × JValue)) (k : String) (v : JValue) :
    List (String × JValue) :=
  match fields with
  | [] => [(k, v)]
  | (k', v') :: rest =>
      if k' == k then (k, v) :: rest else (k', v') :: setKey rest k v

/-! ## Document model (`types.py`) -/

mutual
/-- `NodeElement` dataclass: `tag`, optional `attrs` dict, optional
`children` list whose entries are raw strings or nested nodes. -/
inductive NodeElement : Type where
  | mk (tag : String) (attrs : Option (List (String × JValue)))
       (children : Option (List Child))

/-- One entry of a `children` list: a plain text string or a nested node. -/
inductive Child : Type where
  | text (s : String)
  | elem (n : NodeElement)
end

def NodeElement.tag : NodeElement → String
  | .mk t _ _ => t

def NodeElement.attrs : NodeElement → Option (List (String × JValue))
  | .mk _ a _ => a

def NodeElement.children : NodeElement → Option (List Child)
  | .mk _ _ c => c

mutual
/-- `NodeElement.as_dict`: always a `tag` key; `attrs` key only when the
attrs dict is truthy (present and non-empty), copied; `children` key only
when the children list is truthy, each child serialized in order. -/
def NodeElement.as_dict : NodeElement → JValue
  | .mk tag attrs children =>
      let base := [("tag", JValue.str tag)]
      let withAttrs :=
        match attrs with
        | some a => if a.isEmpty then base else base ++ [("attrs", JValue.obj a)]
        | none => base
      let withChildren :=
        match children with
        | some cs =>
            if cs.isEmpty then withAttrs
            else withAttrs ++ [("children", JValue.arr (serializeChildren cs))]
        | none => withAttrs
      JValue.obj withChildren

/-- The loop body of `as_dict`: a `NodeElement` child contributes its own
`as_dict`, a string child contributes the literal string.  (The Python
loop would silently drop any other runtime type; the typed model has
no such values.) -/
def serializeChild : Child → JValue
  | .text s => JValue.str s
  | .elem n => NodeElement.as_dict n

def serializeChildren : List Child → List JValue
  | [] => []
  | c :: cs => serializeChild c :: serializeChildren cs
end

/-! ## Typed records (`types.py` dataclasses)

Dataclass fields carry whatever JSON value the response supplied (Python
does not enforce the annotations); optional fields default to `None`.
`X.ofKwargs` models `X(**data)`: every key must name a field, every field
without a default must be present, otherwise `TypeError`. -/

/-- Exceptions the client code can raise, one constructor per Python class. -/
inductive TgError : Type where
  | attributeError (msg : String)
  | runtimeError (msg : String)
  | clientResponseError (status : Nat) (message : String)
  | telegraphException (message : String)
  | keyError (key : String)
  | typeError (msg : String)
deriving Repr, DecidableEq

/-- `data[k]` on an arbitrary value: `KeyError` for a missing key,
`TypeError` when the value is not a dict. -/
def JValue.getItem : JValue → String → Except TgError JValue
  | .obj fields, k =>
      match lookupKey fields k with
      | some v => .ok v
      | none => .error (.keyError k)
  | _, _ => .error (.typeError "value is not subscriptable")

/-- `X(**data)` demands a mapping after `**`. -/
def asMapping : JValue → Except TgError (List (String × JValue))
  | .obj fields => .ok fields
  | _ => .error (.typeError "argument after ** must be a mapping")

/-- `for x in v`: lists yield their elements, dicts their keys,
strings their characters; scalars raise `TypeError`. -/
def iterElems : JValue → Except TgError (List JValue)
  | .arr elems => .ok elems
  | .obj fields => .ok (fields.map (fun kv => .str kv.1))
  | .str s => .ok (s.toList.map (fun c => .str (String.singleton c)))
  | _ => .error (.typeError "object is not iterable")

structure Account : Type where
  short_name : JValue
  author_name : JValue
  author_url : JValue
  access_token : JValue
  auth_url : JValue
  page_count : JValue
deriving Repr

def accountFieldNames : List String :=
  ["short_name", "author_name", "author_url", "access_token", "auth_url", "page_count"]

def Account.ofKwargs (data : List (String × JValue)) : Except TgError Account :=
  if data.all (fun kv => accountFieldNames.contains kv.1) then
    match lookupKey data "short_name", lookupKey data "author_name",
          lookupKey data "author_url" with
    | some sn, some an, some au =>
        .ok { short_name := sn, author_name := an, author_url := au
              access_token := (lookupKey data "access_token").getD .null
              auth_url := (lookupKey data "auth_url").getD .null
              page_count := (lookupKey data "page_count").getD .null }
    | _, _, _ => .error (.typeError "Account() missing a required positional argument")
  else .error (.typeError "Account() got an unexpected keyword argument")

def Account.ofData (v : JValue) : Except TgError Account :=
  (asMapping v).bind Account.ofKwargs

structure Page : Type where
  path : JValue
  url : JValue
  title : JValue
  description : JValue
  author_name : JValue
  author_url : JValue
  image_url : JValue
  content : JValue
  views : JValue
  can_edit : JValue
deriving Repr

def pageFieldNames : List String :=
  ["path", "url", "title", "description", "author_name", "author_url",
   "image_url", "content", "views", "can_edit"]

def Page.ofKwargs (data : List (String × JValue)) : Except TgError Page :=
  if data.all (fun kv => pageFieldNames.contains kv.1) then
    match lookupKey data "path", lookupKey data "url",
          lookupKey data "title", lookupKey data "description" with
    | some p, some u, some t, some d =>
        .ok { path := p, url := u, title := t, description := d
              author_name := (lookupKey data "author_name").getD .null
              author_url := (lookupKey data "author_url").getD .null
              image_url := (lookupKey data "image_url").getD .null
              content := (lookupKey data "content").getD .null
              views := (lookupKey data "views").getD .null
              can_edit := (lookupKey data "can_edit").getD .null }
    | _, _, _, _ => .error (.typeError "Page() missing a required positional argument")
  else .error (.typeError "Page() got an unexpected keyword argument")

def Page.ofData (v : JValue) : Except TgError Page :=
  (asMapping v).bind Page.ofKwargs

structure PageViews : Type where
  views : JValue
deriving Repr

def PageViews.ofKwargs (data : List (String × JValue)) : Except TgError PageViews :=
  if data.all (fun kv => kv.1 == "views") then
    match lookupKey data "views" with
    | some v => .ok { views := v }
    | none => .error (.typeError "PageViews() missing a required positional argument")
  else .error (.typeError "PageViews() got an unexpected keyword argument")

def PageViews.ofData (v : JValue) : Except TgError PageViews :=
  (asMapping v).bind PageViews.ofKwargs

/-! ## API client (`api.py`) -/

/-- The aiohttp session object created by `__aenter__`.  As a plain Python
object it is always truthy; `__aexit__` closes it but leaves the attribute
set. -/
structure ClientSession : Type where
  timeout_total : Nat
  closed : Bool
deriving Repr, DecidableEq

/-- Python truthiness of a `ClientSession` instance: objects without
`__bool__`/`__len__` are always truthy, even after `close()`. -/
def ClientSession.truthy (_ : ClientSession) : Bool := true

/-- The attribute state of a `Telegraph` instance.  `session = none` models
the attribute never having been assigned (it is not set in `__init__`),
so reading `self.session` raises `AttributeError`. -/
structure TelegraphState : Type where
  base_url : String
  access_token : JValue
  session : Option ClientSession
deriving Repr

/-- `Telegraph.__init__(access_token=None)`: sets `base_url` and
`access_token`; does NOT assign `self.session`. -/
def Telegraph.init (access_token : Option String) : TelegraphState :=
  { base_url := "https://api.telegra.ph/"
    access_token := match access_token with | some t => .str t | none => .null
    session := none }

/-- `Telegraph.__aenter__`: creates the session with a 10-second total
timeout. -/
def Telegraph.aenter (st : TelegraphState) : TelegraphState :=
  { st with session := some { timeout_total := 10, closed := false } }

/-- `Telegraph.__aexit__`: closes the session if the attribute is truthy;
the attribute itself stays assigned. -/
def Telegraph.aexit (st : TelegraphState) : TelegraphState :=
  match st.session with
  | some s => if s.truthy then { st with session := some { s with closed := true } } else st
  | none => st

/-- One POST actually issued on the wire: the URL built from `base_url`
and the method name, and the JSON parameter map sent as the body. -/
structure WireCall : Type where
  url : String
  method : String
  params : List (String × JValue)
deriving Repr

/-- What the transport hands back for a request: HTTP status, body text
(read only on the error path), and the parsed JSON body. -/
structure HttpResponse : Type where
  status : Nat
  text : String
  json : JValue
deriving Repr

/-- `Telegraph._request`, line by line:
raise if `self.session` is unavailable — the attribute read itself
raises `AttributeError` when the attribute was never assigned, and a set
session object is always truthy, so the intended `RuntimeError` cannot
fire; attach the stored token unless the method is `createAccount` or
the token is falsy; POST once; non-200 raises `ClientResponseError`
before the envelope is parsed; a falsy `ok` raises `TelegraphException`
from the `error` field without touching `result`; otherwise return
`result`.  The pair's second component lists the wire calls issued. -/
def Telegraph.request (st : TelegraphState) (server : WireCall → HttpResponse)
    (method : String) (params : List (String × JValue)) :
    Except TgError JValue × List WireCall :=
  match st.session with
  | none => (.error (.attributeError "'Telegraph' object has no attribute 'session'"), [])
  | some sess =>
      if sess.truthy = false then
        (.error (.runtimeError
          "Session is not initialized. Use \"async with Telegraph(...)\" or pass a session."), [])
      else
        let params1 :=
          if method != "createAccount" then
            if jTruthy st.access_token then setKey params "access_token" st.access_token
            else params
          else params
        let call : WireCall := ⟨st.base_url ++ "/" ++ method, method, params1⟩
        let resp := server call
        if resp.status ≠ 200 then
          (.error (.clientResponseError resp.status
            ("HTTP " ++ toString resp.status ++ ": " ++ resp.text)), [call])
        else
          match resp.json.getItem "ok" with
          | .error e => (.error e, [call])
          | .ok okVal =>
              if jTruthy okVal = false then
                match resp.json.getItem "error" with
                | .error e => (.error e, [call])
                | .ok errVal =>
                    (.error (.telegraphException ("API Error: " ++ pyStr errVal)), [call])
              else
                match resp.json.getItem "result" with
                | .error e => (.error e, [call])
                | .ok result => (.ok result, [call])

/-- Outcome of one operation: the returned value or raised exception, the
wire calls issued, and the client state when control returns. -/
structure OpResult (α : Type) : Type where
  result : Except TgError α
  calls : List WireCall
  state : TelegraphState

/-- `None`-able string argument to its JSON form. -/
def optStr : Option String → JValue
  | some s => .str s
  | none => .null

/-- `None`-able int argument to its JSON form. -/
def optInt : Option Int → JValue
  | some n => .num n
  | none => .null

/-- `None`-able bool argument to its JSON form. -/
def optBool : Option Bool → JValue
  | some b => .bool b
  | none => .null

/-- `Telegraph.create_account`: three required string params, request
`createAccount`, build the `Account`, then store its token. -/
def Telegraph.create_account (st : TelegraphState) (server : WireCall → HttpResponse)
    (short_name author_name author_url : String) : OpResult Account :=
  let params := [("short_name", JValue.str short_name),
                 ("author_name", JValue.str author_name),
                 ("author_url", JValue.str author_url)]
  match Telegraph.request st server "createAccount" params with
  | (.error e, calls) => ⟨.error e, calls, st⟩
  | (.ok data, calls) =>
      match Account.ofData data with
      | .error e => ⟨.error e, calls, st⟩
      | .ok account =>
          ⟨.ok account, calls, { st with access_token := account.access_token }⟩

/-- `Telegraph.create_page`: serializes `content` via `as_dict`, includes
`access_token` and the optional author fields (as given, `None` included),
requests `createPage`, builds the `Page`. -/
def Telegraph.create_page (st : TelegraphState) (server : WireCall → HttpResponse)
    (title : String) (content : List NodeElement)
    (author_name author_url : Option String) (return_content : Bool) : OpResult Page :=
  let contentWire := content.map NodeElement.as_dict
  let params := [("access_token", st.access_token),
                 ("title", JValue.str title),
                 ("content", JValue.arr contentWire),
                 ("author_name", optStr author_name),
                 ("author_url", optStr author_url),
                 ("return_content", JValue.bool return_content)]
  match Telegraph.request st server "createPage" params with
  | (.error e, calls) => ⟨.error e, calls, st⟩
  | (.ok data, calls) =>
      match Page.ofData data with
      | .error e => ⟨.error e, calls, st⟩
      | .ok page => ⟨.ok page, calls, st⟩

/-- `Telegraph.edit_account_info`: three optional params sent as given,
request `editAccountInfo`, build the `Account`, then store its token. -/
def Telegraph.edit_account_info (st : TelegraphState) (server : WireCall → HttpResponse)
    (short_name author_name author_url : Option String) : OpResult Account :=
  let params := [("short_name", optStr short_name),
                 ("author_name", optStr author_name),
                 ("author_url", optStr author_url)]
  match Telegraph.request st server "editAccountInfo" params with
  | (.error e, calls) => ⟨.error e, calls, st⟩
  | (.ok data, calls) =>
      match Account.ofData data with
      | .error e => ⟨.error e, calls, st⟩
      | .ok account =>
          ⟨.ok account, calls, { st with access_token := account.access_token }⟩

/-- `Telegraph.edit_page`: like `create_page` but with a `path` param and
the `editPage` method; does not touch the stored token. -/
def Telegraph.edit_page (st : TelegraphState) (server : WireCall → HttpResponse)
    (path title : String) (content : List NodeElement)
    (author_name author_url : Option String) (return_content : Bool) : OpResult Page :=
  let contentWire := content.map NodeElement.as_dict
  let params := [("path", JValue.str path),
                 ("title", JValue.str title),
                 ("content", JValue.arr contentWire),
                 ("author_name", optStr author_name),
                 ("author_url", optStr author_url),
                 ("return_content", JValue.bool return_content)]
  match Telegraph.request st server "editPage" params with
  | (.error e, calls) => ⟨.error e, calls, st⟩
  | (.ok data, calls) =>
      match Page.ofData data with
      | .error e => ⟨.error e, calls, st⟩
      | .ok page => ⟨.ok page, calls, st⟩

/-- `Telegraph.get_account_info`: one optional `fields` param (a list of
field names, or `None`), request `getAccountInfo`, build the `Account`;
does not store the token. -/
def Telegraph.get_account_info (st : TelegraphState) (server : WireCall → HttpResponse)
    (fields : Option (List String)) : OpResult Account :=
  let params := [("fields",
      match fields with
      | some fs => JValue.arr (fs.map JValue.str)
      | none => JValue.null)]
  match Telegraph.request st server "getAccountInfo" params with
  | (.error e, calls) => ⟨.error e, calls, st⟩
  | (.ok data, calls) =>
      match Account.ofData data with
      | .error e => ⟨.error e, calls, st⟩
      | .ok account => ⟨.ok account, calls, st⟩

/-- `Telegraph.get_page`: `path` plus optional `return_content` (default
`None`), request `getPage`, build the `Page`. -/
def Telegraph.get_page (st : TelegraphState) (server : WireCall → HttpResponse)
    (path : String) (return_content : Option Bool) : OpResult Page :=
  let params := [("path", JValue.str path),
                 ("return_content", optBool return_content)]
  match Telegraph.request st server "getPage" params with
  | (.error e, calls) => ⟨.error e, calls, st⟩
  | (.ok data, calls) =>
      match Page.ofData data with
      | .error e => ⟨.error e, calls, st⟩
      | .ok page => ⟨.ok page, calls, st⟩

/-- `Telegraph.get_page_list`: optional `offset`/`limit` sent as given,
request `getPageList`, then build one `Page` per entry of
`data['pages']`, in response order; the rest of the result envelope
(including any `total_count`) is discarded. -/
def Telegraph.get_page_list (st : TelegraphState) (server : WireCall → HttpResponse)
    (limit offset : Option Int) : OpResult (List Page) :=
  let params := [("offset", optInt offset),
                 ("limit", optInt limit)]
  match Telegraph.request st server "getPageList" params with
  | (.error e, calls) => ⟨.error e, calls, st⟩
  | (.ok data, calls) =>
      match data.getItem "pages" with
      | .error e => ⟨.error e, calls, st⟩
      | .ok pagesVal =>
          match iterElems pagesVal with
          | .error e => ⟨.error e, calls, st⟩
          | .ok elems =>
              match elems.mapM Page.ofData with
              | .error e => ⟨.error e, calls, st⟩
              | .ok pages => ⟨.ok pages, calls, st⟩

/-- `Telegraph.get_views`: takes `path` but builds its parameter map from
`year`/`month`/`day`/`hour` only — `path` is never put in `params`;
request `getViews`, build the `PageViews`. -/
def Telegraph.get_views (st : TelegraphState) (server : WireCall → HttpResponse)
    (path : String) (year month day hour : Option Int) : OpResult PageViews :=
  let params := [("year", optInt year),
                 ("month", optInt month),
                 ("day", optInt day),
                 ("hour", optInt hour)]
  match Telegraph.request st server "getViews" params with
  | (.error e, calls) => ⟨.error e, calls, st⟩
  | (.ok data, calls) =>
      match PageViews.ofData data with
      | .error e => ⟨.error e, calls, st⟩
      | .ok views => ⟨.ok views, calls, st⟩

/-- `Telegraph.revoke_access_token`: requests the `getViews` method with an
empty parameter map (the source's copy-paste slip — its docstring points
at `revokeAccessToken`), builds an `Account` from the result, and does
not update the stored token. -/
def Telegraph.revoke_access_token (st : TelegraphState)
    (server : WireCall → HttpResponse) : OpResult Account :=
  match Telegraph.request st server "getViews" [] with
  | (.error e, calls) => ⟨.error e, calls, st⟩
  | (.ok data, calls) =>
      match Account.ofData data with
      | .error e => ⟨.error e, calls, st⟩
      | .ok account => ⟨.ok account, calls, st⟩

/-! ## Test oracles and concrete fixtures -/

/-- A transport oracle that answers every call identically. -/
def constServer (r : HttpResponse) : WireCall → HttpResponse := fun _ => r

/-- A 200 response whose envelope is `ok: true` with the given result. -/
def okEnvelope (result : JValue) : HttpResponse :=
  ⟨200, "", .obj [("ok", .bool true), ("result", result)]⟩

/-- A client that was constructed with token `"T1"` and entered its
context (`async with`). -/
def enteredT1 : TelegraphState := Telegraph.aenter (Telegraph.init (some "T1"))

/-- A client constructed without a token, context entered. -/
def enteredNoTok : TelegraphState := Telegraph.aenter (Telegraph.init none)

/-- A server that always answers with a successful `getViews`-shaped
result. -/
def viewsOkServer : WireCall → HttpResponse :=
  constServer (okEnvelope (.obj [("views", .num 40)]))

/-- A server that always answers with a minimal successful page object. -/
def pageOkServer : WireCall → HttpResponse :=
  constServer (okEnvelope (.obj [("path", .str "abc"), ("url", .str "https://telegra.ph/abc"),
    ("title", .str "A"), ("description", .str "")]))

/-- A successful account payload carrying token `"T2"`. -/
def accountT2Result : JValue :=
  .obj [("short_name", .str "me"), ("author_name", .str "Me"),
        ("author_url", .str "https://me.example"), ("access_token", .str "T2"),
        ("auth_url", .str "https://edit.example")]

/-- A server that always answers with `accountT2Result`. -/
def accountT2Server : WireCall → HttpResponse := constServer (okEnvelope accountT2Result)

/-- The `Account` record the client builds from `accountT2Result`. -/
def accountT2 : Account :=
  { short_name := .str "me", author_name := .str "Me"
    author_url := .str "https://me.example", access_token := .str "T2"
    auth_url := .str "https://edit.example", page_count := .null }

/-- A page object carrying only the four required fields. -/
def pageObjOf (p u t d : String) : JValue :=
  .obj [("path", .str p), ("url", .str u), ("title", .str t), ("description", .str d)]

/-- The `Page` record the client builds from `pageObjOf p u t d`. -/
def plainPage (p u t d : String) : Page :=
  { path := .str p, url := .str u, title := .str t, description := .str d
    author_name := .null, author_url := .null, image_url := .null
    content := .null, views := .null, can_edit := .null }

/-- A page-list result whose envelope carries a `total_count` and three
pages in server order. -/
def threePagesResult : JValue :=
  .obj [("total_count", .num 3),
        ("pages", .arr [pageObjOf "p1" "u1" "t1" "d1", pageObjOf "p2" "u2" "t2" "d2",
                        pageObjOf "p3" "u3" "t3" "d3"])]

/-- A server that always answers with `threePagesResult`. -/
def pageListServer : WireCall → HttpResponse := constServer (okEnvelope threePagesResult)

/-- A 200 response whose envelope is `ok: false` with the given error
string and an arbitrary result payload. -/
def apiErrorResponse (e : String) (payload : JValue) : HttpResponse :=
  ⟨200, "", .obj [("ok", .bool false), ("error", .str e), ("result", payload)]⟩

/-- A client that entered its context holding the empty-string token. -/
def enteredEmptyTok : TelegraphState := Telegraph.aenter (Telegraph.init (some ""))

/-! ## Claim theorems -/

/-- Pointwise description of the serialization of a children list: same
length, and position `i` holds the literal string for a text child and
the recursive `as_dict` for a node child. -/
theorem serializeChildren_spec (cs : List Child) :
    (serializeChildren cs).length = cs.length
    ∧ ∀ (i : ℕ) (hi : i < cs.length) (hw : i < (serializeChildren cs).length),
        (serializeChildren cs).get ⟨i, hw⟩ =
          match cs.get ⟨i, hi⟩ with
          | .text s => JValue.str s
          | .elem m => m.as_dict := by
  induction cs with
  | nil => exact ⟨rfl, fun i hi => absurd hi (Nat.not_lt_zero i)⟩
  | cons c rest ih =>
      refine ⟨by simpa [serializeChildren] using ih.1, ?_⟩
      intro i hi hw
      cases i with
      | zero => cases c <;> simp [serializeChildren, serializeChild]
      | succ j =>
          simp only [serializeChildren, List.get_cons_succ]
          exact ih.2 j (Nat.lt_of_succ_lt_succ hi) _

/-- C4: a node whose attrs dict is absent or empty and whose children
list is absent or empty serializes to an object holding only the `tag`
key — no `attrs` key, no `children` key. -/
theorem as_dict_omits_empty (n : NodeElement)
    (ha : n.attrs = none ∨ n.attrs = some [])
    (hc : n.children = none ∨ n.children = some []) :
    n.as_dict = JValue.obj [("tag", JValue.str n.tag)] := by
  obtain ⟨t, a, c⟩ := n
  simp only [NodeElement.attrs, NodeElement.children, NodeElement.tag] at ha hc ⊢
  rcases ha with rfl | rfl <;> rcases hc with rfl | rfl <;>
    simp [NodeElement.as_dict]

/-- Witness for C4 at a childless `br` node with an empty children list. -/
theorem as_dict_omits_empty_check :
    (NodeElement.mk "br" none (some [])).as_dict
      = JValue.obj [("tag", JValue.str "br")] :=
  as_dict_omits_empty (NodeElement.mk "br" none (some [])) (Or.inl rfl) (Or.inr rfl)

/-- C5: serialization preserves the tag, the attribute map contents, and
the children pointwise in their original order — at position `i` a string
child appears as the literal string and a node child as its recursive
serialization; this holds of every node, hence at every nesting level. -/
theorem as_dict_preserves (n : NodeElement) :
    n.as_dict.getItem "tag" = .ok (.str n.tag)
    ∧ (∀ a, n.attrs = some a → a ≠ [] → n.as_dict.getItem "attrs" = .ok (.obj a))
    ∧ (∀ cs, n.children = some cs → cs ≠ [] →
        ∃ ws, n.as_dict.getItem "children" = .ok (.arr ws)
          ∧ ws.length = cs.length
          ∧ ∀ (i : ℕ) (hi : i < cs.length) (hw : i < ws.length),
              ws.get ⟨i, hw⟩ =
                match cs.get ⟨i, hi⟩ with
                | .text s => JValue.str s
                | .elem m => m.as_dict) := by
  obtain ⟨t, a, c⟩ := n
  simp only [NodeElement.tag, NodeElement.attrs, NodeElement.children]
  refine ⟨?_, ?_, ?_⟩
  · rcases a with _ | (_ | ⟨kv, al⟩) <;> rcases c with _ | (_ | ⟨c0, cs⟩) <;>
      simp [NodeElement.as_dict, JValue.getItem, lookupKey, List.find?_cons]
  · intro al ha hne
    subst ha
    rcases al with _ | ⟨kv, al⟩
    · exact absurd rfl hne
    · rcases c with _ | (_ | ⟨c0, cs⟩) <;>
        simp [NodeElement.as_dict, JValue.getItem, lookupKey, List.find?_cons]
  · intro cs hcs hne
    subst hcs
    refine ⟨serializeChildren cs, ?_, (serializeChildren_spec cs).1,
      (serializeChildren_spec cs).2⟩
    rcases cs with _ | ⟨c0, cs⟩
    · exact absurd rfl hne
    · rcases a with _ | (_ | ⟨kv, al⟩) <;>
        simp [NodeElement.as_dict, JValue.getItem, lookupKey, List.find?_cons]

/-- Witness for C5 at the spec's example tree
`p["Hello, ", b["world!"]]`. -/
theorem as_dict_preserves_check :
    (NodeElement.mk "p" none (some [Child.text "Hello, ",
        Child.elem (NodeElement.mk "b" none (some [Child.text "world!"]))])).as_dict.getItem "tag"
      = .ok (.str "p")
    ∧ ∃ ws, (NodeElement.mk "p" none (some [Child.text "Hello, ",
        Child.elem (NodeElement.mk "b" none (some [Child.text "world!"]))])).as_dict.getItem "children"
          = .ok (.arr ws) ∧ ws.length = 2 := by
  have h := as_dict_preserves (NodeElement.mk "p" none (some [Child.text "Hello, ",
    Child.elem (NodeElement.mk "b" none (some [Child.text "world!"]))]))
  refine ⟨h.1, ?_⟩
  obtain ⟨ws, h1, h2, -⟩ := h.2.2 _ rfl (by simp)
  exact ⟨ws, h1, by simpa using h2⟩

/-- Looking up the key just written by `setKey` yields the new value. -/
theorem lookupKey_setKey_same (l : List (String × JValue)) (k : String) (v : JValue) :
    lookupKey (setKey l k v) k = some v := by
  induction l with
  | nil => simp [setKey, lookupKey, List.find?_cons]
  | cons kv rest ih =>
      obtain ⟨k', v'⟩ := kv
      by_cases hk : k' = k
      · subst hk; simp [setKey, lookupKey, List.find?_cons]
      · have hb : (k' == k) = false := beq_eq_false_iff_ne.mpr hk
        simp only [setKey, hb, Bool.false_eq_true, if_false]
        simpa [lookupKey, List.find?_cons, hb] using ih

/-- `setKey` at one key leaves lookups of every other key unchanged. -/
theorem lookupKey_setKey_other (l : List (String × JValue)) (k k' : String) (v : JValue)
    (h : k' ≠ k) : lookupKey (setKey l k v) k' = lookupKey l k' := by
  have hb : (k == k') = false := beq_eq_false_iff_ne.mpr (Ne.symm h)
  induction l with
  | nil => simp [setKey, lookupKey, List.find?_cons, hb]
  | cons kv rest ih =>
      obtain ⟨k0, v0⟩ := kv
      by_cases hk : k0 = k
      · subst hk
        simp [setKey, lookupKey, List.find?_cons, hb]
      · have hbk : (k0 == k) = false := beq_eq_false_iff_ne.mpr hk
        simp only [setKey, hbk, Bool.false_eq_true, if_false]
        by_cases hk0 : k0 = k'
        · subst hk0; simp [lookupKey, List.find?_cons]
        · have hb0 : (k0 == k') = false := beq_eq_false_iff_ne.mpr hk0
          simpa [lookupKey, List.find?_cons, hb0] using ih

/-- With a set session, `_request` issues exactly one wire call: the
method's URL and the given params, with the stored token written under
`access_token` for non-`createAccount` methods when the token is truthy. -/
theorem request_calls (st : TelegraphState) (sess : ClientSession)
    (hs : st.session = some sess) (srv : WireCall → HttpResponse)
    (m : String) (p : List (String × JValue)) :
    (Telegraph.request st srv m p).2 =
      [⟨st.base_url ++ "/" ++ m, m,
        if m != "createAccount" then
          if jTruthy st.access_token then setKey p "access_token" st.access_token else p
        else p⟩] := by
  simp only [Telegraph.request, hs, ClientSession.truthy]
  split
  · next h => exact absurd h (by simp)
  · repeat' first | rfl | split

/-- `create_account` forwards exactly the wire calls `_request` makes. -/
theorem create_account_calls (st : TelegraphState) (srv : WireCall → HttpResponse)
    (sn an au : String) :
    (Telegraph.create_account st srv sn an au).calls
      = (Telegraph.request st srv "createAccount"
          [("short_name", JValue.str sn), ("author_name", JValue.str an),
           ("author_url", JValue.str au)]).2 := by
  simp only [Telegraph.create_account]
  split
  · simp_all
  · split <;> simp_all

/-- `create_page` forwards exactly the wire calls `_request` makes. -/
theorem create_page_calls (st : TelegraphState) (srv : WireCall → HttpResponse)
    (t : String) (c : List NodeElement) (an au : Option String) (rc : Bool) :
    (Telegraph.create_page st srv t c an au rc).calls
      = (Telegraph.request st srv "createPage"
          [("access_token", st.access_token), ("title", JValue.str t),
           ("content", JValue.arr (c.map NodeElement.as_dict)),
           ("author_name", optStr an), ("author_url", optStr au),
           ("return_content", JValue.bool rc)]).2 := by
  simp only [Telegraph.create_page]
  split
  · simp_all
  · split <;> simp_all

/-- `edit_account_info` forwards exactly the wire calls `_request` makes. -/
theorem edit_account_info_calls (st : TelegraphState) (srv : WireCall → HttpResponse)
    (sn an au : Option String) :
    (Telegraph.edit_account_info st srv sn an au).calls
      = (Telegraph.request st srv "editAccountInfo"
          [("short_name", optStr sn), ("author_name", optStr an),
           ("author_url", optStr au)]).2 := by
  simp only [Telegraph.edit_account_info]
  split
  · simp_all
  · split <;> simp_all

/-- `edit_page` forwards exactly the wire calls `_request` makes. -/
theorem edit_page_calls (st : TelegraphState) (srv : WireCall → HttpResponse)
    (p t : String) (c : List NodeElement) (an au : Option String) (rc : Bool) :
    (Telegraph.edit_page st srv p t c an au rc).calls
      = (Telegraph.request st srv "editPage"
          [("path", JValue.str p), ("title", JValue.str t),
           ("content", JValue.arr (c.map NodeElement.as_dict)),
           ("author_name", optStr an), ("author_url", optStr au),
           ("return_content", JValue.bool rc)]).2 := by
  simp only [Telegraph.edit_page]
  split
  · simp_all
  · split <;> simp_all

/-- `get_account_info` forwards exactly the wire calls `_request` makes. -/
theorem get_account_info_calls (st : TelegraphState) (srv : WireCall → HttpResponse)
    (fields : Option (List String)) :
    (Telegraph.get_account_info st srv fields).calls
      = (Telegraph.request st srv "getAccountInfo"
          [("fields",
            match fields with
            | some fs => JValue.arr (fs.map JValue.str)
            | none => JValue.null)]).2 := by
  simp only [Telegraph.get_account_info]
  split
  · simp_all
  · split <;> simp_all

/-- `get_page` forwards exactly the wire calls `_request` makes. -/
theorem get_page_calls (st : TelegraphState) (srv : WireCall → HttpResponse)
    (p : String) (rc : Option Bool) :
    (Telegraph.get_page st srv p rc).calls
      = (Telegraph.request st srv "getPage"
          [("path", JValue.str p), ("return_content", optBool rc)]).2 := by
  simp only [Telegraph.get_page]
  split
  · simp_all
  · split <;> simp_all

/-- `get_page_list` forwards exactly the wire calls `_request` makes. -/
theorem get_page_list_calls (st : TelegraphState) (srv : WireCall → HttpResponse)
    (limit offset : Option Int) :
    (Telegraph.get_page_list st srv limit offset).calls
      = (Telegraph.request st srv "getPageList"
          [("offset", optInt offset), ("limit", optInt limit)]).2 := by
  simp only [Telegraph.get_page_list]
  split
  · simp_all
  · split
    · simp_all
    · split
      · simp_all
      · split <;> simp_all

/-- `get_views` forwards exactly the wire calls `_request` makes; note
the parameter list it hands over contains no `path` entry. -/
theorem get_views_calls (st : TelegraphState) (srv : WireCall → HttpResponse)
    (p : String) (y mo d h : Option Int) :
    (Telegraph.get_views st srv p y mo d h).calls
      = (Telegraph.request st srv "getViews"
          [("year", optInt y), ("month", optInt mo), ("day", optInt d),
           ("hour", optInt h)]).2 := by
  simp only [Telegraph.get_views]
  split
  · simp_all
  · split <;> simp_all

/-- `revoke_access_token` forwards exactly the wire calls `_request`
makes — for the `getViews` method with an empty parameter map. -/
theorem revoke_access_token_calls (st : TelegraphState) (srv : WireCall → HttpResponse) :
    (Telegraph.revoke_access_token st srv).calls
      = (Telegraph.request st srv "getViews" []).2 := by
  simp only [Telegraph.revoke_access_token]
  split
  · simp_all
  · split <;> simp_all

/-- C1: the revoke-access-token operation issues exactly one wire call,
but to the `getViews` method (not `revokeAccessToken`), and even on a
successful views response it cannot build the promised Account — the
`Account(**data)` call raises `TypeError` on the `views` key. -/
theorem revoke_access_token_hits_views_endpoint :
    (Telegraph.revoke_access_token enteredT1 viewsOkServer).calls
      = [⟨"https://api.telegra.ph//getViews", "getViews",
          [("access_token", JValue.str "T1")]⟩]
    ∧ "getViews" ≠ "revokeAccessToken"
    ∧ (Telegraph.revoke_access_token enteredT1 viewsOkServer).result
      = .error (.typeError "Account() got an unexpected keyword argument") :=
  ⟨rfl, by decide, rfl⟩

/-- C2 counterexample: a revoke-access-token call that succeeds (the
server answers the issued `getViews` call with an account object whose
token is `"T2"`) leaves the stored token at the old `"T1"`. -/
theorem revoke_success_does_not_store_token :
    (Telegraph.revoke_access_token enteredT1 accountT2Server).result = .ok accountT2
    ∧ accountT2.access_token = JValue.str "T2"
    ∧ (Telegraph.revoke_access_token enteredT1 accountT2Server).state.access_token
        = JValue.str "T1"
    ∧ JValue.str "T1" ≠ JValue.str "T2" :=
  ⟨rfl, rfl, rfl, by simp⟩

/-- C2 amended: a successful create-account or edit-account-info call
replaces the stored token with the returned account's `access_token`;
revoke-access-token never touches the stored token, and neither does any
other operation. -/
theorem token_mutation_paths :
    (∀ st srv sn an au acc,
        (Telegraph.create_account st srv sn an au).result = .ok acc →
        (Telegraph.create_account st srv sn an au).state.access_token = acc.access_token)
    ∧ (∀ st srv sn an au acc,
        (Telegraph.edit_account_info st srv sn an au).result = .ok acc →
        (Telegraph.edit_account_info st srv sn an au).state.access_token = acc.access_token)
    ∧ (∀ st srv, (Telegraph.revoke_access_token st srv).state.access_token
        = st.access_token)
    ∧ (∀ st srv t c an au rc,
        (Telegraph.create_page st srv t c an au rc).state.access_token = st.access_token)
    ∧ (∀ st srv p t c an au rc,
        (Telegraph.edit_page st srv p t c an au rc).state.access_token = st.access_token)
    ∧ (∀ st srv fs,
        (Telegraph.get_account_info st srv fs).state.access_token = st.access_token)
    ∧ (∀ st srv p rc,
        (Telegraph.get_page st srv p rc).state.access_token = st.access_token)
    ∧ (∀ st srv l o,
        (Telegraph.get_page_list st srv l o).state.access_token = st.access_token)
    ∧ (∀ st srv p y mo d h,
        (Telegraph.get_views st srv p y mo d h).state.access_token = st.access_token) := by
  refine ⟨?_, ?_, ?_, ?_, ?_, ?_, ?_, ?_, ?_⟩
  · intro st srv sn an au acc h
    simp only [Telegraph.create_account] at h ⊢
    split at h
    · simp_all
    · split at h
      · simp_all
      · simp_all
  · intro st srv sn an au acc h
    simp only [Telegraph.edit_account_info] at h ⊢
    split at h
    · simp_all
    · split at h
      · simp_all
      · simp_all
  · intro st srv
    simp only [Telegraph.revoke_access_token]
    split
    · rfl
    · split <;> rfl
  · intro st srv t c an au rc
    simp only [Telegraph.create_page]
    split
    · rfl
    · split <;> rfl
  · intro st srv p t c an au rc
    simp only [Telegraph.edit_page]
    split
    · rfl
    · split <;> rfl
  · intro st srv fs
    simp only [Telegraph.get_account_info]
    split
    · rfl
    · split <;> rfl
  · intro st srv p rc
    simp only [Telegraph.get_page]
    split
    · rfl
    · split <;> rfl
  · intro st srv l o
    simp only [Telegraph.get_page_list]
    split
    · rfl
    · split
      · rfl
      · split
        · rfl
        · split <;> rfl
  · intro st srv p y mo d h
    simp only [Telegraph.get_views]
    split
    · rfl
    · split <;> rfl

/-- Witness for C2 amended: after a successful create-account call that
returned token `"T2"`, the stored token is `"T2"`. -/
theorem token_mutation_paths_check :
    (Telegraph.create_account enteredT1 accountT2Server "x" "y" "z").state.access_token
      = JValue.str "T2" := by
  have h := token_mutation_paths.1 enteredT1 accountT2Server "x" "y" "z" accountT2 rfl
  simpa [accountT2] using h

/-- C3: a get-views call never puts the caller-supplied `path` in its
parameter map — the single wire call carries only the time-granularity
keys (plus the token), and succeeds only because the model server
ignores the missing path. -/
theorem get_views_omits_path :
    (Telegraph.get_views enteredT1 viewsOkServer "Sample-Page-12-15"
        (some 2019) none none none).calls
      = [⟨"https://api.telegra.ph//getViews", "getViews",
          [("year", JValue.num 2019), ("month", JValue.null), ("day", JValue.null),
           ("hour", JValue.null), ("access_token", JValue.str "T1")]⟩]
    ∧ lookupKey [("year", JValue.num 2019), ("month", JValue.null), ("day", JValue.null),
          ("hour", JValue.null), ("access_token", JValue.str "T1")] "path" = none
    ∧ (Telegraph.get_views enteredT1 viewsOkServer "Sample-Page-12-15"
        (some 2019) none none none).result = .ok { views := JValue.num 40 } :=
  ⟨rfl, rfl, rfl⟩

/-- C10: a successful get-page-list call returns the bare list of Page
records in the exact server order, and nothing more — the `total_count`
the result envelope carries (here 3) is discarded, not exposed. -/
theorem get_page_list_discards_total_count :
    (Telegraph.get_page_list enteredT1 pageListServer none none).result
      = .ok [plainPage "p1" "u1" "t1" "d1", plainPage "p2" "u2" "t2" "d2",
             plainPage "p3" "u3" "t3" "d3"]
    ∧ threePagesResult.getItem "total_count" = .ok (.num 3) :=
  ⟨rfl, rfl⟩

/-- In the parameter map `_request` sends for a non-`createAccount`
method, every key other than `access_token` is looked up in the original
params unchanged. -/
theorem lookupKey_params_other (m : String) (tok : JValue) (p : List (String × JValue))
    (k : String) (hm : (m != "createAccount") = true) (hk : k ≠ "access_token") :
    lookupKey (if m != "createAccount" then
        if jTruthy tok then setKey p "access_token" tok else p
      else p) k = lookupKey p k := by
  rw [if_pos hm]
  by_cases htok : jTruthy tok = true
  · rw [if_pos htok, lookupKey_setKey_other _ _ _ _ hk]
  · rw [if_neg htok]

/-- In the parameter map `_request` sends for a non-`createAccount`
method with a truthy stored token, `access_token` maps to that token. -/
theorem lookupKey_params_token (m : String) (tok : JValue) (p : List (String × JValue))
    (hm : (m != "createAccount") = true) (htok : jTruthy tok = true) :
    lookupKey (if m != "createAccount" then
        if jTruthy tok then setKey p "access_token" tok else p
      else p) "access_token" = some tok := by
  rw [if_pos hm, if_pos htok, lookupKey_setKey_same]

/-- For the `createAccount` method, `_request` leaves the parameter map
untouched. -/
theorem lookupKey_params_createAccount (tok : JValue) (p : List (String × JValue))
    (k : String) :
    lookupKey (if "createAccount" != "createAccount" then
        if jTruthy tok then setKey p "access_token" tok else p
      else p) k = lookupKey p k := by
  simp

/-- C6 counterexample: a get-page call made without supplying the
optional `return_content` sends a parameter map that still contains the
`return_content` key, bound to JSON null — the unset optional is not
omitted. -/
theorem unset_optional_present_as_null :
    (Telegraph.get_page enteredNoTok pageOkServer "abc" none).calls
      = [⟨"https://api.telegra.ph//getPage", "getPage",
          [("path", JValue.str "abc"), ("return_content", JValue.null)]⟩]
    ∧ lookupKey [("path", JValue.str "abc"), ("return_content", JValue.null)]
        "return_content" = some JValue.null :=
  ⟨rfl, rfl⟩

/-- C6 amended: an optional parameter the caller did not supply is still
included in every request's parameter map, bound to null (Python `None`),
rather than omitted. -/
theorem unset_optionals_sent_as_null (st : TelegraphState) (sess : ClientSession)
    (hs : st.session = some sess) :
    (∀ srv p, ∀ w ∈ (Telegraph.get_page st srv p none).calls,
        lookupKey w.params "return_content" = some JValue.null)
    ∧ (∀ srv t c rc, ∀ w ∈ (Telegraph.create_page st srv t c none none rc).calls,
        lookupKey w.params "author_name" = some JValue.null
        ∧ lookupKey w.params "author_url" = some JValue.null)
    ∧ (∀ srv p t c rc, ∀ w ∈ (Telegraph.edit_page st srv p t c none none rc).calls,
        lookupKey w.params "author_name" = some JValue.null
        ∧ lookupKey w.params "author_url" = some JValue.null)
    ∧ (∀ srv, ∀ w ∈ (Telegraph.edit_account_info st srv none none none).calls,
        lookupKey w.params "short_name" = some JValue.null
        ∧ lookupKey w.params "author_name" = some JValue.null
        ∧ lookupKey w.params "author_url" = some JValue.null)
    ∧ (∀ srv, ∀ w ∈ (Telegraph.get_account_info st srv none).calls,
        lookupKey w.params "fields" = some JValue.null)
    ∧ (∀ srv, ∀ w ∈ (Telegraph.get_page_list st srv none none).calls,
        lookupKey w.params "offset" = some JValue.null
        ∧ lookupKey w.params "limit" = some JValue.null)
    ∧ (∀ srv p, ∀ w ∈ (Telegraph.get_views st srv p none none none none).calls,
        lookupKey w.params "year" = some JValue.null
        ∧ lookupKey w.params "month" = some JValue.null
        ∧ lookupKey w.params "day" = some JValue.null
        ∧ lookupKey w.params "hour" = some JValue.null) := by
  refine ⟨?_, ?_, ?_, ?_, ?_, ?_, ?_⟩
  · intro srv p w hw
    rw [get_page_calls, request_calls st sess hs] at hw
    simp only [List.mem_singleton] at hw
    subst hw
    dsimp only
    rw [lookupKey_params_other _ _ _ _ (by decide) (by decide)]
    simp [lookupKey, List.find?_cons, optBool]
  · intro srv t c rc w hw
    rw [create_page_calls, request_calls st sess hs] at hw
    simp only [List.mem_singleton] at hw
    subst hw
    dsimp only
    refine ⟨?_, ?_⟩ <;>
      (rw [lookupKey_params_other _ _ _ _ (by decide) (by decide)];
       simp [lookupKey, List.find?_cons, optStr])
  · intro srv p t c rc w hw
    rw [edit_page_calls, request_calls st sess hs] at hw
    simp only [List.mem_singleton] at hw
    subst hw
    dsimp only
    refine ⟨?_, ?_⟩ <;>
      (rw [lookupKey_params_other _ _ _ _ (by decide) (by decide)];
       simp [lookupKey, List.find?_cons, optStr])
  · intro srv w hw
    rw [edit_account_info_calls, request_calls st sess hs] at hw
    simp only [List.mem_singleton] at hw
    subst hw
    dsimp only
    refine ⟨?_, ?_, ?_⟩ <;>
      (rw [lookupKey_params_other _ _ _ _ (by decide) (by decide)];
       simp [lookupKey, List.find?_cons, optStr])
  · intro srv w hw
    rw [get_account_info_calls, request_calls st sess hs] at hw
    simp only [List.mem_singleton] at hw
    subst hw
    dsimp only
    rw [lookupKey_params_other _ _ _ _ (by decide) (by decide)]
    simp [lookupKey, List.find?_cons]
  · intro srv w hw
    rw [get_page_list_calls, request_calls st sess hs] at hw
    simp only [List.mem_singleton] at hw
    subst hw
    dsimp only
    refine ⟨?_, ?_⟩ <;>
      (rw [lookupKey_params_other _ _ _ _ (by decide) (by decide)];
       simp [lookupKey, List.find?_cons, optInt])
  · intro srv p w hw
    rw [get_views_calls, request_calls st sess hs] at hw
    simp only [List.mem_singleton] at hw
    subst hw
    dsimp only
    refine ⟨?_, ?_, ?_, ?_⟩ <;>
      (rw [lookupKey_params_other _ _ _ _ (by decide) (by decide)];
       simp [lookupKey, List.find?_cons, optInt])

/-- Witness for C6 amended at a concrete get-page call. -/
theorem unset_optionals_sent_as_null_check :
    lookupKey [("path", JValue.str "xyz"), ("return_content", JValue.null)]
      "return_content" = some JValue.null := by
  have h := (unset_optionals_sent_as_null enteredNoTok ⟨10, false⟩ rfl).1 pageOkServer "xyz"
      ⟨"https://api.telegra.ph//getPage", "getPage",
        [("path", JValue.str "xyz"), ("return_content", JValue.null)]⟩
      (List.Mem.head _)
  simpa using h

/-- C7 counterexample: on a `{"ok": false, "error": "PAGE_NOT_FOUND"}`
envelope, get-page raises a `TelegraphException` whose carried string is
`"API Error: PAGE_NOT_FOUND"` — the server string embedded verbatim, but
prefixed, so not exactly the server-supplied string. -/
theorem api_error_message_not_exact :
    (Telegraph.get_page enteredNoTok
        (constServer (apiErrorResponse "PAGE_NOT_FOUND" JValue.null)) "abc" none).result
      = .error (.telegraphException "API Error: PAGE_NOT_FOUND")
    ∧ "API Error: PAGE_NOT_FOUND" ≠ "PAGE_NOT_FOUND" :=
  ⟨rfl, by decide⟩

/-- C7 amended: when the HTTP call succeeds but the envelope's `ok` flag
is false, every request fails with a `TelegraphException` carrying
`"API Error: "` followed by the server-supplied error string; the result
payload is never inspected (the outcome is the same for every payload),
and get-page in particular returns that error and never a `Page`. -/
theorem api_error_propagation (st : TelegraphState) (sess : ClientSession)
    (hs : st.session = some sess) (m : String) (ps : List (String × JValue))
    (e : String) (payload : JValue) (p : String) (rc : Option Bool) :
    (Telegraph.request st (constServer (apiErrorResponse e payload)) m ps).1
      = .error (.telegraphException ("API Error: " ++ e))
    ∧ (Telegraph.get_page st (constServer (apiErrorResponse e payload)) p rc).result
      = .error (.telegraphException ("API Error: " ++ e)) := by
  have key : ∀ (m2 : String) (ps2 : List (String × JValue)),
      Telegraph.request st (constServer (apiErrorResponse e payload)) m2 ps2
        = (.error (.telegraphException ("API Error: " ++ e)),
           [⟨st.base_url ++ "/" ++ m2, m2,
             if m2 != "createAccount" then
               if jTruthy st.access_token then setKey ps2 "access_token" st.access_token
               else ps2
             else ps2⟩]) := by
    intro m2 ps2
    simp [Telegraph.request, hs, ClientSession.truthy, constServer, apiErrorResponse,
      JValue.getItem, lookupKey, List.find?_cons, jTruthy, pyStr]
  refine ⟨by rw [key], ?_⟩
  simp only [Telegraph.get_page, key]

/-- Witness for C7 amended at a concrete error envelope with a junk
payload. -/
theorem api_error_propagation_check :
    (Telegraph.get_page enteredNoTok
        (constServer (apiErrorResponse "NOT_FOUND" (JValue.str "junk"))) "xyz" none).result
      = .error (.telegraphException ("API Error: " ++ "NOT_FOUND")) :=
  (api_error_propagation enteredNoTok ⟨10, false⟩ rfl "getPage" [] "NOT_FOUND"
    (JValue.str "junk") "xyz" none).2

/-- C8 counterexample: a client holding the empty-string access token is
holding a (string-valued) token, yet a get-page request carries no
`access_token` key — Python's truthiness check skips attaching `""`. -/
theorem empty_token_not_attached :
    enteredEmptyTok.access_token = JValue.str ""
    ∧ (Telegraph.get_page enteredEmptyTok pageOkServer "abc" none).calls
        = [⟨"https://api.telegra.ph//getPage", "getPage",
            [("path", JValue.str "abc"), ("return_content", JValue.null)]⟩]
    ∧ lookupKey [("path", JValue.str "abc"), ("return_content", JValue.null)]
        "access_token" = none :=
  ⟨rfl, rfl, rfl⟩

/-- C8 amended: when the stored access token is truthy (in particular
non-empty), every operation other than create-account sends it under the
`access_token` key; a create-account request never carries the stored
token. -/
theorem token_attached_outside_create_account (st : TelegraphState) (sess : ClientSession)
    (hs : st.session = some sess) (htok : jTruthy st.access_token = true) :
    (∀ srv p rc, ∀ w ∈ (Telegraph.get_page st srv p rc).calls,
        lookupKey w.params "access_token" = some st.access_token)
    ∧ (∀ srv t c an au rc, ∀ w ∈ (Telegraph.create_page st srv t c an au rc).calls,
        lookupKey w.params "access_token" = some st.access_token)
    ∧ (∀ srv sn an au, ∀ w ∈ (Telegraph.edit_account_info st srv sn an au).calls,
        lookupKey w.params "access_token" = some st.access_token)
    ∧ (∀ srv p t c an au rc, ∀ w ∈ (Telegraph.edit_page st srv p t c an au rc).calls,
        lookupKey w.params "access_token" = some st.access_token)
    ∧ (∀ srv fs, ∀ w ∈ (Telegraph.get_account_info st srv fs).calls,
        lookupKey w.params "access_token" = some st.access_token)
    ∧ (∀ srv l o, ∀ w ∈ (Telegraph.get_page_list st srv l o).calls,
        lookupKey w.params "access_token" = some st.access_token)
    ∧ (∀ srv p y mo d h, ∀ w ∈ (Telegraph.get_views st srv p y mo d h).calls,
        lookupKey w.params "access_token" = some st.access_token)
    ∧ (∀ srv, ∀ w ∈ (Telegraph.revoke_access_token st srv).calls,
        lookupKey w.params "access_token" = some st.access_token)
    ∧ (∀ srv sn an au, ∀ w ∈ (Telegraph.create_account st srv sn an au).calls,
        lookupKey w.params "access_token" = none) := by
  refine ⟨?_, ?_, ?_, ?_, ?_, ?_, ?_, ?_, ?_⟩
  · intro srv p rc w hw
    rw [get_page_calls, request_calls st sess hs] at hw
    simp only [List.mem_singleton] at hw
    subst hw
    dsimp only
    exact lookupKey_params_token "getPage" _ _ (by decide) htok
  · intro srv t c an au rc w hw
    rw [create_page_calls, request_calls st sess hs] at hw
    simp only [List.mem_singleton] at hw
    subst hw
    dsimp only
    exact lookupKey_params_token "createPage" _ _ (by decide) htok
  · intro srv sn an au w hw
    rw [edit_account_info_calls, request_calls st sess hs] at hw
    simp only [List.mem_singleton] at hw
    subst hw
    dsimp only
    exact lookupKey_params_token "editAccountInfo" _ _ (by decide) htok
  · intro srv p t c an au rc w hw
    rw [edit_page_calls, request_calls st sess hs] at hw
    simp only [List.mem_singleton] at hw
    subst hw
    dsimp only
    exact lookupKey_params_token "editPage" _ _ (by decide) htok
  · intro srv fs w hw
    rw [get_account_info_calls, request_calls st sess hs] at hw
    simp only [List.mem_singleton] at hw
    subst hw
    dsimp only
    exact lookupKey_params_token "getAccountInfo" _ _ (by decide) htok
  · intro srv l o w hw
    rw [get_page_list_calls, request_calls st sess hs] at hw
    simp only [List.mem_singleton] at hw
    subst hw
    dsimp only
    exact lookupKey_params_token "getPageList" _ _ (by decide) htok
  · intro srv p y mo d h w hw
    rw [get_views_calls, request_calls st sess hs] at hw
    simp only [List.mem_singleton] at hw
    subst hw
    dsimp only
    exact lookupKey_params_token "getViews" _ _ (by decide) htok
  · intro srv w hw
    rw [revoke_access_token_calls, request_calls st sess hs] at hw
    simp only [List.mem_singleton] at hw
    subst hw
    dsimp only
    exact lookupKey_params_token "getViews" _ _ (by decide) htok
  · intro srv sn an au w hw
    rw [create_account_calls, request_calls st sess hs] at hw
    simp only [List.mem_singleton] at hw
    subst hw
    dsimp only
    rw [lookupKey_params_createAccount]
    simp [lookupKey, List.find?_cons]

/-- Witness for C8 amended: with stored token `"T1"`, a get-page request
carries it. -/
theorem token_attached_outside_create_account_check :
    lookupKey [("path", JValue.str "abc"), ("return_content", JValue.null),
        ("access_token", JValue.str "T1")] "access_token" = some (JValue.str "T1") := by
  have h := (token_attached_outside_create_account enteredT1 ⟨10, false⟩ rfl rfl).1
      pageOkServer "abc" none
      ⟨"https://api.telegra.ph//getPage", "getPage",
        [("path", JValue.str "abc"), ("return_content", JValue.null),
         ("access_token", JValue.str "T1")]⟩
      (List.Mem.head _)
  simpa using h

/-- C9: any operation invoked on a freshly constructed client — before
`__aenter__` ever ran — raises `AttributeError` (not the intended
`RuntimeError`: `__init__` never assigns `self.session`, so the guard's
own attribute read fails first) and issues zero wire calls, leaving the
state unchanged. -/
theorem pre_acquisition_attribute_error (tok : Option String) :
    (∀ srv sn an au, Telegraph.create_account (Telegraph.init tok) srv sn an au
        = ⟨.error (.attributeError "'Telegraph' object has no attribute 'session'"), [],
           Telegraph.init tok⟩)
    ∧ (∀ srv t c an au rc, Telegraph.create_page (Telegraph.init tok) srv t c an au rc
        = ⟨.error (.attributeError "'Telegraph' object has no attribute 'session'"), [],
           Telegraph.init tok⟩)
    ∧ (∀ srv sn an au, Telegraph.edit_account_info (Telegraph.init tok) srv sn an au
        = ⟨.error (.attributeError "'Telegraph' object has no attribute 'session'"), [],
           Telegraph.init tok⟩)
    ∧ (∀ srv p t c an au rc, Telegraph.edit_page (Telegraph.init tok) srv p t c an au rc
        = ⟨.error (.attributeError "'Telegraph' object has no attribute 'session'"), [],
           Telegraph.init tok⟩)
    ∧ (∀ srv fs, Telegraph.get_account_info (Telegraph.init tok) srv fs
        = ⟨.error (.attributeError "'Telegraph' object has no attribute 'session'"), [],
           Telegraph.init tok⟩)
    ∧ (∀ srv p rc, Telegraph.get_page (Telegraph.init tok) srv p rc
        = ⟨.error (.attributeError "'Telegraph' object has no attribute 'session'"), [],
           Telegraph.init tok⟩)
    ∧ (∀ srv l o, Telegraph.get_page_list (Telegraph.init tok) srv l o
        = ⟨.error (.attributeError "'Telegraph' object has no attribute 'session'"), [],
           Telegraph.init tok⟩)
    ∧ (∀ srv p y mo d h, Telegraph.get_views (Telegraph.init tok) srv p y mo d h
        = ⟨.error (.attributeError "'Telegraph' object has no attribute 'session'"), [],
           Telegraph.init tok⟩)
    ∧ (∀ srv, Telegraph.revoke_access_token (Telegraph.init tok) srv
        = ⟨.error (.attributeError "'Telegraph' object has no attribute 'session'"), [],
           Telegraph.init tok⟩) :=
  ⟨fun _ _ _ _ => rfl, fun _ _ _ _ _ _ => rfl, fun _ _ _ _ => rfl,
   fun _ _ _ _ _ _ _ => rfl, fun _ _ => rfl, fun _ _ _ => rfl,
   fun _ _ _ => rfl, fun _ _ _ _ _ _ => rfl, fun _ => rfl⟩
